import Mathlib

/-!
Shallow embedding of the multi-site job scraper in `src/main.py`
(`MultiSiteJobScraper` and the tool-level `search_jobs` wrapper).

Modelling conventions:
* HTTP traffic is an oracle `String → Nat → List AttemptOutcome` giving, for a
  URL and a request index, the outcome of each successive attempt of the retry
  loop (`requests.Session.get` either raises, modelled as `.exn`, or yields a
  `Response`).
* A parsed HTML document (`BeautifulSoup(html)`) is a `List Elem` in document
  order.  Each `Elem` records whether it is selected by each site's
  `find_all` criterion and what the site-specific `card.find(...)` calls
  return on it: `.error` models a raised exception inside the per-card `try`
  block, `.ok none` a `find` returning `None`, `.ok (some s)` an element whose
  `get_text(strip=True)` is `s`.
* Python dicts of heterogeneous result shapes are one `SearchResult`
  structure with `Option`-valued fields; `none` means the key is absent.
* Wall-clock effects (`time.sleep`, the `timestamp` diagnostic field,
  logging, the request counter) carry no data into any result and are
  omitted.
-/

/-- A job record.  Reed records carry a salary key, the CWJobs/Totaljobs
parsers emit records without one, so `salary` is optional. -/
structure Job where
  title : String
  company : String
  location : String
  salary : Option String := none
deriving DecidableEq, Repr

/-- Result of one `card.find(...).get_text(strip=True)` probe inside a
per-card `try` block: raised / not found / found with the given text. -/
abbrev FindRes := Except String (Option String)

/-- The three field probes `_parse_reed` performs on one candidate card
(title, company, location, salary finds). -/
structure Card where
  titleF : FindRes := .ok none
  companyF : FindRes := .ok none
  locationF : FindRes := .ok none
  salaryF : FindRes := .ok none

/-- The three field probes `_parse_cwjobs` / `_parse_totaljobs` perform on one
candidate card (title, company, location finds). -/
structure CardCw where
  titleF : FindRes := .ok none
  companyF : FindRes := .ok none
  locationF : FindRes := .ok none

/-- One top-level element of the parsed document.  The three flags state
whether the element is selected by, respectively, Reed's class-keyword
selector (class matches the job-or-result regex), CWJobs' class-keyword
selector (class matches the job regex), and Totaljobs' attribute selector
(a data-job-id attribute is present); the cards hold what each site's
sub-find calls would return on it. -/
structure Elem where
  matchesReed : Bool := false
  matchesCw : Bool := false
  hasJobId : Bool := false
  reedCard : Card := {}
  cwCard : CardCw := {}
  totalCard : CardCw := {}

/-- An HTTP response as the pipeline sees it: final status code, the parsed
document of the response text, and what the json-decode of the body would
yield for the origin key (`.error` = json decoding raises, `.ok none` = no
origin key). -/
structure Response where
  status : Nat
  soup : List Elem := []
  jsonData : Except String (Option String) := .error "json decode error"

/-- Outcome of one attempt of `self.session.get(url, ...)`: a raised
exception or a response. -/
inductive AttemptOutcome where
  | exn (e : String)
  | resp (r : Response)

/-- Oracle giving, per URL and request index, the successive attempt
outcomes seen by the retry loop. -/
abbrev FetchOracle := String → Nat → List AttemptOutcome

/-- One entry of the `results` list built by `_demo_proxy_rotation`
(the wall-clock `timestamp` diagnostic field is omitted). -/
inductive RotEntry where
  | ok (request_number : Nat) (proxy_ip : String)
  | err (request_number : Nat) (error : String)

/-- The union of all result-dict shapes `search_jobs` / `_demo_proxy_rotation`
return; a `none` field models an absent dict key. -/
structure SearchResult where
  success : Bool
  site : Option String := none
  error : Option String := none
  available_sites : Option String := none
  tip : Option String := none
  query : Option String := none
  location : Option String := none
  total_found : Option Nat := none
  jobs : Option (List Job) := none
  demo_data : Option (List Job) := none
  message : Option String := none
  demo_mode : Option String := none
  requests : Option (List RotEntry) := none

/-- One entry of `MultiSiteJobScraper.SITE_CONFIGS`. -/
structure SiteConfig where
  name : String
  base_url : String
  search_path : Option String := none
  search_path_no_loc : Option String := none
  difficulty : String
  requires_js : Option Bool := none
deriving DecidableEq

namespace MultiSiteJobScraper

/-- The `"reed"` entry of `SITE_CONFIGS`. -/
def reedConfig : SiteConfig :=
  { name := "Reed.co.uk", base_url := "https://www.reed.co.uk",
    search_path := some "/jobs/{query}-jobs-in-{location}",
    search_path_no_loc := some "/jobs/{query}-jobs",
    difficulty := "easy", requires_js := some false }

/-- The `"cwjobs"` entry of `SITE_CONFIGS`. -/
def cwjobsConfig : SiteConfig :=
  { name := "CWJobs", base_url := "https://www.cwjobs.co.uk",
    search_path := some "/jobs/{query}/in-{location}",
    search_path_no_loc := some "/jobs/{query}",
    difficulty := "medium", requires_js := some false }

/-- The `"totaljobs"` entry of `SITE_CONFIGS`. -/
def totaljobsConfig : SiteConfig :=
  { name := "Totaljobs", base_url := "https://www.totaljobs.com",
    search_path := some "/jobs/{query}/in-{location}",
    search_path_no_loc := some "/jobs/{query}",
    difficulty := "medium", requires_js := some false }

/-- The `"httpbin-demo"` entry of `SITE_CONFIGS`. -/
def httpbinConfig : SiteConfig :=
  { name := "HTTPBin Demo", base_url := "http://httpbin.org", difficulty := "easy" }

/-- `MultiSiteJobScraper.SITE_CONFIGS`, in the source's (dict-insertion)
key order. -/
def SITE_CONFIGS : List (String × SiteConfig) :=
  [("reed", reedConfig), ("cwjobs", cwjobsConfig),
   ("totaljobs", totaljobsConfig), ("httpbin-demo", httpbinConfig)]

/-- The registered source identifiers, in registry order. -/
def SITE_KEYS : List String := SITE_CONFIGS.map Prod.fst

/-- Python `s.lower()` restricted to the ASCII range the configs and queries
use (`Char.toLower` lower-cases exactly the ASCII capitals). -/
def pyLower (s : String) : String := ⟨s.data.map Char.toLower⟩

/-- Python `s.replace(" ", "-")`: the pattern is a single character, so the
replacement is a character map. -/
def replaceSpaceDash (s : String) : String :=
  ⟨s.data.map (fun c => if c = ' ' then '-' else c)⟩

/-- Python `s.title()` on ASCII text: an alphabetic character is upper-cased
when the previous character is not alphabetic and lower-cased otherwise
(`go cased cs` with `cased` = previous character was alphabetic). -/
def pyTitleGo : Bool → List Char → List Char
  | _, [] => []
  | cased, c :: cs =>
    if c.isAlpha then
      (if cased then c.toLower else c.toUpper) :: pyTitleGo true cs
    else
      c :: pyTitleGo false cs

/-- Python `s.title()` (ASCII). -/
def pyTitle (s : String) : String := ⟨pyTitleGo false s.data⟩

/-- Upper-case hex digit of a value below 16, as `urllib.parse.quote` emits. -/
def hexDigitChar (n : Nat) : Char :=
  if n < 10 then Char.ofNat (48 + n) else Char.ofNat (55 + n)

/-- Bytes `urllib.parse.quote_plus` leaves unescaped: ASCII alphanumerics and
`_ . - ~`. -/
def isQuoteSafeByte (b : Nat) : Bool :=
  (48 ≤ b && b ≤ 57) || (65 ≤ b && b ≤ 90) || (97 ≤ b && b ≤ 122) ||
  b = 95 || b = 46 || b = 45 || b = 126

/-- `quote_plus` on one UTF-8 byte: space becomes `+`, safe bytes pass
through, the rest become `%XX`. -/
def quotePlusByte (b : Nat) : String :=
  if b = 32 then "+"
  else if isQuoteSafeByte b then String.singleton (Char.ofNat (b % 256))
  else "%" ++ String.singleton (hexDigitChar (b / 16 % 16)) ++ String.singleton (hexDigitChar (b % 16))

/-- `urllib.parse.quote_plus` with default arguments, applied byte-wise to the
UTF-8 encoding. -/
def quote_plus (s : String) : String :=
  String.join ((s.toUTF8.toList.map (fun b => quotePlusByte b.toNat)))

/-- Python `template.format(query=q, location=l)` for the `SITE_CONFIGS` path
templates, whose only placeholders are `{query}` and `{location}`. -/
def pyFormat (template q l : String) : String :=
  (template.replace "{query}" q).replace "{location}" l

/-- `urllib.parse.urljoin(base, path)` restricted to the shapes this program
produces: every `base_url` in `SITE_CONFIGS` is `scheme://host` with no path
component and every joined `path` starts with `/`, so the join is
concatenation. -/
def urljoin (base path : String) : String := base ++ path

/-- `MultiSiteJobScraper._build_search_url`. -/
def _build_search_url (config : SiteConfig) (query location : String) : String :=
  let clean_query := replaceSpaceDash (pyLower query)
  let clean_location := if location ≠ "" then replaceSpaceDash (pyLower location) else ""
  let path :=
    if location ≠ "" ∧ config.search_path.isSome then
      pyFormat (config.search_path.getD "") clean_query clean_location
    else if config.search_path_no_loc.isSome then
      pyFormat (config.search_path_no_loc.getD "") clean_query clean_location
    else
      "/jobs?q=" ++ quote_plus query ++
        (if location ≠ "" then "&l=" ++ quote_plus location else "")
  urljoin config.base_url path

/-- The `for attempt in range(max_retries)` loop of
`MultiSiteJobScraper._make_request`, consuming one `AttemptOutcome` per
attempt.  The first argument is the number of attempts still allowed, so
`0 < n` in a branch says this is not the last attempt
(`attempt < max_retries - 1` in the source). -/
def requestLoop : Nat → List AttemptOutcome → Except String Response
  | 0, _ => .error "Max retries exceeded"
  | _ + 1, [] => .error "Max retries exceeded"
  | n + 1, a :: rest =>
    match a with
    | .exn e => if 0 < n then requestLoop n rest else .error e
    | .resp r =>
      if r.status = 200 ∨ r.status = 301 ∨ r.status = 302 then .ok r
      else if r.status = 403 ∧ 0 < n then requestLoop n rest
      else .ok r

/-- `MultiSiteJobScraper._make_request` (`max_retries` defaults to 2 at every
call site); `.error` models the method raising to its caller. -/
def _make_request (attempts : List AttemptOutcome) (max_retries : Nat) : Except String Response :=
  requestLoop max_retries attempts

/-- Body of the per-card `try` block of `_parse_reed`: perform the four field
probes in source order (any may raise), then keep the record only when the
title text is not the `"N/A"` sentinel. -/
def extractReedCard (c : Card) : Except String (Option Job) := do
  let t ← c.titleF
  let title := t.getD "N/A"
  let comp ← c.companyF
  let company := comp.getD "N/A"
  let loc ← c.locationF
  let location := loc.getD "N/A"
  let sal ← c.salaryF
  let salary := sal.getD "Not specified"
  if title = "N/A" then pure none
  else pure (some { title, company, location, salary := some salary })

/-- The record a Reed candidate card contributes, if any: `none` both when the
`try` body raises (`except: continue`) and when no title was found. -/
def reedRecord? (c : Card) : Option Job :=
  match extractReedCard c with
  | .ok (some j) => some j
  | _ => none

/-- The `for card in job_cards[:limit]` loop of `_parse_reed`: a raised
per-card exception or a failed title check skips the card and continues. -/
def reedLoop : List Card → List Job
  | [] => []
  | c :: cs =>
    match extractReedCard c with
    | .ok (some j) => j :: reedLoop cs
    | _ => reedLoop cs

/-- `MultiSiteJobScraper._parse_reed`: `find_all` selects the first
`limit*2` matching elements in document order, then the loop visits only the
first `limit` of them. -/
def _parse_reed (soup : List Elem) (limit : Nat) : List Job :=
  let job_cards := ((soup.filter (·.matchesReed)).take (limit * 2)).map (·.reedCard)
  reedLoop (job_cards.take limit)

/-- Body of the per-card `try` block of `_parse_cwjobs` / `_parse_totaljobs`:
the three field probes run in source order, then the record is kept exactly
when the title element was found. -/
def extractCwCard (c : CardCw) : Except String (Option Job) := do
  let t ← c.titleF
  let comp ← c.companyF
  let loc ← c.locationF
  match t with
  | some title =>
      pure (some { title, company := comp.getD "N/A", location := loc.getD "N/A" })
  | none => pure none

/-- The record a CWJobs/Totaljobs candidate card contributes, if any. -/
def cwRecord? (c : CardCw) : Option Job :=
  match extractCwCard c with
  | .ok (some j) => some j
  | _ => none

/-- The per-card loop shared by `_parse_cwjobs` and `_parse_totaljobs`. -/
def cwLoop : List CardCw → List Job
  | [] => []
  | c :: cs =>
    match extractCwCard c with
    | .ok (some j) => j :: cwLoop cs
    | _ => cwLoop cs

/-- `MultiSiteJobScraper._parse_cwjobs`. -/
def _parse_cwjobs (soup : List Elem) (limit : Nat) : List Job :=
  let job_cards := ((soup.filter (·.matchesCw)).take (limit * 2)).map (·.cwCard)
  cwLoop (job_cards.take limit)

/-- `MultiSiteJobScraper._parse_totaljobs`. -/
def _parse_totaljobs (soup : List Elem) (limit : Nat) : List Job :=
  let job_cards := ((soup.filter (·.hasJobId)).take (limit * 2)).map (·.totalCard)
  cwLoop (job_cards.take limit)

/-- `MultiSiteJobScraper._parse_jobs`: dispatch on the site tag; any other
site yields the empty list (the `jobs = []` initialisation). -/
def _parse_jobs (soup : List Elem) (site : String) (limit : Nat) : List Job :=
  if site = "reed" then _parse_reed soup limit
  else if site = "cwjobs" then _parse_cwjobs soup limit
  else if site = "totaljobs" then _parse_totaljobs soup limit
  else []

/-- The five-entry synthetic catalog built by
`MultiSiteJobScraper._get_demo_jobs` before truncation. -/
def demoCatalog (query : String) : List Job :=
  let q := pyTitle query
  [ { title := "Senior " ++ q, company := "Tech Solutions Ltd",
      location := "London", salary := some "£60k-£80k" },
    { title := q ++ " Developer", company := "Digital Innovations",
      location := "Manchester", salary := some "£50k-£70k" },
    { title := "Lead " ++ q, company := "FinTech Corp",
      location := "Edinburgh", salary := some "£70k-£90k" },
    { title := "Junior " ++ q, company := "StartUp Hub",
      location := "Bristol", salary := some "£35k-£45k" },
    { title := "Principal " ++ q, company := "Enterprise Co",
      location := "Birmingham", salary := some "£80k-£100k" } ]

/-- `MultiSiteJobScraper._get_demo_jobs`. -/
def _get_demo_jobs (query : String) (limit : Nat) : List Job :=
  (demoCatalog query).take limit

/-- `MultiSiteJobScraper._blocked_response`. -/
def _blocked_response (query location : String) (limit : Nat) (site : String) (soft : Bool) : SearchResult :=
  { success := false,
    site := some site,
    error := some (if soft then "Could not parse jobs" else "Site blocked request"),
    query := some query,
    location := some location,
    tip := some "Try a different site (reed, cwjobs, totaljobs) or use httpbin-demo",
    demo_data := some (_get_demo_jobs query limit),
    message := some "⚠️  Showing demo data" }

/-- The comma-joined identifier list placed in the unknown-site error
(`", ".join(s for s in SITE_CONFIGS if s != "httpbin-demo")`). -/
def availableSites : String :=
  String.intercalate ", " (SITE_KEYS.filter (fun s => s ≠ "httpbin-demo"))

/-- The unknown-site error envelope of `search_jobs`. -/
def unknownSiteResult (site : String) : SearchResult :=
  { success := false,
    error := some ("Unknown site: " ++ site),
    available_sites := some availableSites,
    tip := some "Try 'reed' for best results" }

/-- The `except Exception` envelope of `search_jobs`. -/
def errorResult (e site : String) : SearchResult :=
  { success := false, error := some e, site := some site }

/-- `MultiSiteJobScraper._demo_proxy_rotation`: up to `min(iterations, 10)`
diagnostic requests to the IP-echo URL; each iteration's `try` catches both a
raising fetch and a raising `response.json()`. -/
def _demo_proxy_rotation (iterations : Nat) (oracle : FetchOracle) : SearchResult :=
  let results := (List.range (min iterations 10)).map (fun i =>
    match _make_request (oracle "http://httpbin.org/ip" i) 2 with
    | .error e => RotEntry.err (i + 1) e
    | .ok resp =>
      match resp.jsonData with
      | .error e => RotEntry.err (i + 1) e
      | .ok o => RotEntry.ok (i + 1) (o.getD "Unknown"))
  { success := true,
    demo_mode := some "proxy_rotation",
    requests := some results,
    message := some "🎯 Thordata rotates IPs automatically!" }

/-- The `success=True` envelope of `search_jobs` (note `site` holds the
display name and `location` falls back to `"UK-wide"` when empty). -/
def successResult (config : SiteConfig) (query location : String) (jobs : List Job) : SearchResult :=
  { success := true,
    site := some config.name,
    query := some query,
    location := some (if location = "" then "UK-wide" else location),
    total_found := some jobs.length,
    jobs := some jobs,
    message := some ("✨ Retrieved from " ++ config.name ++ " via Thordata proxies") }

/-- `MultiSiteJobScraper.search_jobs`.  The fetch oracle stands for the
network: the single site fetch uses the attempts the oracle assigns to the
built URL at request index 0. -/
def search_jobs (query location : String) (limit : Nat) (site : String)
    (oracle : FetchOracle) : SearchResult :=
  if site = "httpbin-demo" then
    _demo_proxy_rotation limit oracle
  else
    match SITE_CONFIGS.lookup site with
    | none => unknownSiteResult site
    | some config =>
      match _make_request (oracle (_build_search_url config query location) 0) 2 with
      | .error e => errorResult e site
      | .ok response =>
        if response.status = 403 then
          _blocked_response query location limit site false
        else if response.status ≠ 200 then
          _blocked_response query location limit site false
        else if (_parse_jobs response.soup site limit).isEmpty then
          _blocked_response query location limit site true
        else
          successResult config query location (_parse_jobs response.soup site limit)

end MultiSiteJobScraper

/-- The `@mcp.tool()` wrapper `search_jobs`: clamps the requested limit with
`min(max(limit, 1), 20)` before delegating to the scraper. -/
def search_jobs (query location : String) (limit : Nat) (site : String)
    (oracle : FetchOracle) : SearchResult :=
  MultiSiteJobScraper.search_jobs query location (min (max limit 1) 20) site oracle

/-- Modelled from the spec: the "regex field extraction" strategy of §4.6 is
described in the spec but absent from `src/main.py` (no regex-positional
parser exists there); following the spec's words, four independently
extracted field lists are assembled "by zipping the four lists up to the
shortest list's length, bounded by `limit`". -/
def regexZipExtract (titles companies locations snippets : List String) (limit : Nat) : List Job :=
  ((((titles.zip companies).zip locations).zip snippets).take limit).map
    (fun p => { title := p.1.1.1, company := p.1.1.2, location := p.1.2, salary := some p.2 })

/-- Fixture: a matching Reed container on which no sub-find succeeds, so its
title falls back to the sentinel and the record is dropped. -/
def cardNoTitle : Card := {}

/-- Fixture: a matching Reed container with a title element. -/
def cardTitled : Card := { titleF := .ok (some "Python Developer") }

/-- Fixture document: two Reed-matching containers, the first without a
title, the second with one. -/
def c2Body : List Elem :=
  [{ matchesReed := true, reedCard := cardNoTitle },
   { matchesReed := true, reedCard := cardTitled }]

/-- Fixture: a 403 (blocked) response. -/
def fetch403 : Response := { status := 403 }

/-- Fixture: a 204 response (a non-200, non-403 status). -/
def fetch204 : Response := { status := 204 }

/-- Fixture: a 500 response whose body is not JSON. -/
def fetch500 : Response := { status := 500 }

/-- Fixture: a 200 response whose document holds one titled Reed container. -/
def fetch200 : Response :=
  { status := 200, soup := [{ matchesReed := true, reedCard := cardTitled }] }

/-- Fixture oracle: every attempt of every request yields a 403. -/
def oracle403 : FetchOracle := fun _ _ => [.resp fetch403, .resp fetch403]

/-- Fixture oracle: the first attempt of every request yields a 204. -/
def oracle204 : FetchOracle := fun _ _ => [.resp fetch204, .resp fetch204]

/-- Fixture oracle: the first attempt of every request yields a 500. -/
def oracle500 : FetchOracle := fun _ _ => [.resp fetch500, .resp fetch500]

/-- Fixture oracle: the first attempt of every request yields the 200
response with one titled container. -/
def oracle200 : FetchOracle := fun _ _ => [.resp fetch200, .resp fetch200]

/-- Fixture oracle: the network is never reached (no attempts recorded). -/
def oracleNone : FetchOracle := fun _ _ => []

namespace MultiSiteJobScraper

theorem reedLoop_eq_filterMap (cs : List Card) : reedLoop cs = cs.filterMap reedRecord? := by
  induction cs with
  | nil => rfl
  | cons c cs ih =>
    simp only [reedLoop, List.filterMap_cons, reedRecord?]
    cases h : extractReedCard c with
    | error e => simpa [h] using ih
    | ok o => cases o <;> simp [h, ih]

theorem cwLoop_eq_filterMap (cs : List CardCw) : cwLoop cs = cs.filterMap cwRecord? := by
  induction cs with
  | nil => rfl
  | cons c cs ih =>
    simp only [cwLoop, List.filterMap_cons, cwRecord?]
    cases h : extractCwCard c with
    | error e => simpa [h] using ih
    | ok o => cases o <;> simp [h, ih]

theorem parse_reed_eq (soup : List Elem) (limit : Nat) :
    _parse_reed soup limit =
      ((soup.filter (·.matchesReed)).take limit).filterMap (fun e => reedRecord? e.reedCard) := by
  simp only [_parse_reed]
  rw [← List.map_take, List.take_take, reedLoop_eq_filterMap, List.filterMap_map]
  have : min limit (limit * 2) = limit := by omega
  rw [this]
  rfl

theorem parse_cwjobs_eq (soup : List Elem) (limit : Nat) :
    _parse_cwjobs soup limit =
      ((soup.filter (·.matchesCw)).take limit).filterMap (fun e => cwRecord? e.cwCard) := by
  simp only [_parse_cwjobs]
  rw [← List.map_take, List.take_take, cwLoop_eq_filterMap, List.filterMap_map]
  have : min limit (limit * 2) = limit := by omega
  rw [this]
  rfl

theorem parse_totaljobs_eq (soup : List Elem) (limit : Nat) :
    _parse_totaljobs soup limit =
      ((soup.filter (·.hasJobId)).take limit).filterMap (fun e => cwRecord? e.totalCard) := by
  simp only [_parse_totaljobs]
  rw [← List.map_take, List.take_take, cwLoop_eq_filterMap, List.filterMap_map]
  have : min limit (limit * 2) = limit := by omega
  rw [this]
  rfl

theorem parse_jobs_length_le (soup : List Elem) (site : String) (limit : Nat) :
    (_parse_jobs soup site limit).length ≤ limit := by
  have bound : ∀ (l : List Elem) (p : Elem → Bool) (f : Elem → Option Job),
      (((l.filter p).take limit).filterMap f).length ≤ limit := by
    intro l p f
    calc (((l.filter p).take limit).filterMap f).length
        ≤ ((l.filter p).take limit).length := List.length_filterMap_le _ _
      _ ≤ limit := by rw [List.length_take]; omega
  unfold _parse_jobs
  split_ifs with h1 h2 h3
  · rw [parse_reed_eq]; exact bound _ _ _
  · rw [parse_cwjobs_eq]; exact bound _ _ _
  · rw [parse_totaljobs_eq]; exact bound _ _ _
  · simp

end MultiSiteJobScraper

/-- C2: the claim fails on the code: the heuristic strategy collects up to
`2*limit` matching containers but slices the candidate list to `limit`
BEFORE the title check, so a body whose two matching containers are a
title-less one followed by a titled one yields 0 records at limit 1, not
`min 1 1 = 1` as the claim predicts. -/
theorem c2_counterexample_title_check_after_truncation :
    (c2Body.filter (·.matchesReed)).length = 2 ∧
    (c2Body.filter (·.matchesReed)).countP
      (fun e => (MultiSiteJobScraper.reedRecord? e.reedCard).isSome) = 1 ∧
    MultiSiteJobScraper._parse_reed c2Body 1 = [] ∧
    (MultiSiteJobScraper._parse_reed c2Body 1).length ≠
      min ((c2Body.filter (·.matchesReed)).countP
        (fun e => (MultiSiteJobScraper.reedRecord? e.reedCard).isSome)) 1 :=
  ⟨rfl, rfl, rfl, by decide⟩

/-- C2 (amended): the heuristic strategy truncates the candidate list to
`limit` before the title check: extraction returns exactly the records of the
title-yielding containers among the first `limit` matching containers (and
hence at most `limit` records). -/
theorem c2_truncation_before_title_check (soup : List Elem) (limit : Nat) :
    MultiSiteJobScraper._parse_reed soup limit =
      ((soup.filter (·.matchesReed)).take limit).filterMap
        (fun e => MultiSiteJobScraper.reedRecord? e.reedCard) ∧
    (MultiSiteJobScraper._parse_reed soup limit).length ≤ limit := by
  constructor
  · exact MultiSiteJobScraper.parse_reed_eq soup limit
  · rw [MultiSiteJobScraper.parse_reed_eq]
    calc (((soup.filter (·.matchesReed)).take limit).filterMap
            (fun e => MultiSiteJobScraper.reedRecord? e.reedCard)).length
        ≤ ((soup.filter (·.matchesReed)).take limit).length := List.length_filterMap_le _ _
      _ ≤ limit := by rw [List.length_take]; omega

/-- C4: the claim fails on the code: when the retry budget is exhausted by
repeated 403 responses, `_make_request` returns the final 403 response
instead of raising a terminal transport failure. -/
theorem c4_counterexample_exhausted_403_returns_response :
    MultiSiteJobScraper._make_request [.resp fetch403, .resp fetch403] 2 = .ok fetch403 ∧
    (MultiSiteJobScraper._make_request [.resp fetch403, .resp fetch403] 2).isOk = true :=
  ⟨rfl, rfl⟩

/-- C4 (amended): the fetch retries only on transport exceptions and on
HTTP 403; any other status (including 200/301/302) is returned immediately;
exhausting the budget on transport exceptions raises the last exception,
while exhausting it on 403s returns the final 403 response. -/
theorem c4_retry_policy :
    (∀ (r : Response) (rest : List AttemptOutcome) (n : Nat), r.status ≠ 403 →
      MultiSiteJobScraper.requestLoop (n + 1) (.resp r :: rest) = .ok r) ∧
    (∀ (r : Response) (rest : List AttemptOutcome) (n : Nat), r.status = 403 → 0 < n →
      MultiSiteJobScraper.requestLoop (n + 1) (.resp r :: rest) =
        MultiSiteJobScraper.requestLoop n rest) ∧
    (∀ (e : String) (rest : List AttemptOutcome) (n : Nat), 0 < n →
      MultiSiteJobScraper.requestLoop (n + 1) (.exn e :: rest) =
        MultiSiteJobScraper.requestLoop n rest) ∧
    (∀ (e : String) (rest : List AttemptOutcome),
      MultiSiteJobScraper.requestLoop 1 (.exn e :: rest) = .error e) ∧
    (∀ (r : Response) (rest : List AttemptOutcome),
      MultiSiteJobScraper.requestLoop 1 (.resp r :: rest) = .ok r) := by
  refine ⟨?_, ?_, ?_, ?_, ?_⟩
  · intro r rest n h
    simp only [MultiSiteJobScraper.requestLoop]
    split_ifs with h1 h2
    · rfl
    · exact absurd h2.1 h
    · rfl
  · intro r rest n h hn
    simp only [MultiSiteJobScraper.requestLoop]
    rw [if_neg (by simp [h]), if_pos ⟨h, hn⟩]
  · intro e rest n hn
    simp only [MultiSiteJobScraper.requestLoop]
    rw [if_pos hn]
  · intro e rest
    rfl
  · intro r rest
    show MultiSiteJobScraper.requestLoop (0 + 1) (.resp r :: rest) = .ok r
    simp only [MultiSiteJobScraper.requestLoop]
    split_ifs with h1 h2
    · rfl
    · exact absurd h2.2 (by omega)
    · rfl

/-- C4 witness: a 204 response on the first attempt is returned immediately. -/
theorem c4_witness : MultiSiteJobScraper.requestLoop 1 [.resp fetch204] = .ok fetch204 :=
  c4_retry_policy.1 fetch204 [] 0 (by decide)

/-- C6 (spec-modelled): the regex-positional strategy zips the four field
lists up to the shortest length, bounded by the limit; in particular 3
titles, 3 companies, 2 locations (and at least 2 snippets) yield exactly 2
records. -/
theorem c6_regex_zip_shortest :
    (∀ (titles companies locations snippets : List String) (limit : Nat),
      (regexZipExtract titles companies locations snippets limit).length =
        min limit (min (min (min titles.length companies.length) locations.length)
          snippets.length)) ∧
    (∀ (titles companies locations snippets : List String) (limit : Nat),
      titles.length = 3 → companies.length = 3 → locations.length = 2 →
      2 ≤ snippets.length → 2 ≤ limit →
      (regexZipExtract titles companies locations snippets limit).length = 2) := by
  have hlen : ∀ (titles companies locations snippets : List String) (limit : Nat),
      (regexZipExtract titles companies locations snippets limit).length =
        min limit (min (min (min titles.length companies.length) locations.length)
          snippets.length) := by
    intro titles companies locations snippets limit
    unfold regexZipExtract
    simp [List.length_take, List.length_zip, Nat.min_assoc]
  refine ⟨hlen, ?_⟩
  intro titles companies locations snippets limit ht hc hl hs hlim
  rw [hlen, ht, hc, hl]
  omega

/-- C6 witness: 3 titles, 3 companies, 2 locations, 3 snippets, limit 10
yield exactly 2 records. -/
theorem c6_witness :
    (regexZipExtract ["a", "b", "c"] ["ca", "cb", "cc"] ["l1", "l2"] ["s1", "s2", "s3"]
      10).length = 2 :=
  c6_regex_zip_shortest.2 ["a", "b", "c"] ["ca", "cb", "cc"] ["l1", "l2"] ["s1", "s2", "s3"]
    10 (by decide) (by decide) (by decide) (by decide) (by decide)

/-- C7: for every document, site tag and limit, extraction is a total
function into a (possibly empty) record list — a per-card raise contributes
`none` (the card is skipped) and later cards are still processed, as the
`filterMap` characterisation shows; no exception reaches the caller. -/
theorem c7_extraction_total_and_skips_failures (soup : List Elem) (site : String) (limit : Nat) :
    MultiSiteJobScraper._parse_jobs soup site limit =
      (if site = "reed" then
        ((soup.filter (·.matchesReed)).take limit).filterMap
          (fun e => MultiSiteJobScraper.reedRecord? e.reedCard)
       else if site = "cwjobs" then
        ((soup.filter (·.matchesCw)).take limit).filterMap
          (fun e => MultiSiteJobScraper.cwRecord? e.cwCard)
       else if site = "totaljobs" then
        ((soup.filter (·.hasJobId)).take limit).filterMap
          (fun e => MultiSiteJobScraper.cwRecord? e.totalCard)
       else []) := by
  unfold MultiSiteJobScraper._parse_jobs
  split_ifs with h1 h2 h3
  · exact MultiSiteJobScraper.parse_reed_eq soup limit
  · exact MultiSiteJobScraper.parse_cwjobs_eq soup limit
  · exact MultiSiteJobScraper.parse_totaljobs_eq soup limit
  · rfl

/-- C8: URL building is deterministic: equal configs, queries and locations
yield equal URL strings. -/
theorem c8_build_url_deterministic (c c' : SiteConfig) (q q' l l' : String)
    (hc : c = c') (hq : q = q') (hl : l = l') :
    MultiSiteJobScraper._build_search_url c q l =
      MultiSiteJobScraper._build_search_url c' q' l' := by
  subst hc; subst hq; subst hl; rfl

/-- C8 witness: two builds of the Reed URL for the same query and location
coincide. -/
theorem c8_witness :
    MultiSiteJobScraper._build_search_url MultiSiteJobScraper.reedConfig
        "python developer" "london" =
      MultiSiteJobScraper._build_search_url MultiSiteJobScraper.reedConfig
        "python developer" "london" :=
  c8_build_url_deterministic _ _ _ _ _ _ rfl rfl rfl

/-- C9: the synthetic catalog has exactly 5 records, the failure envelope
attaches the catalog truncated to the limit, its length is `min limit 5`,
and any requested limit above 5 (after the tool-level clamp
`min (max limit 1) 20`) yields exactly 5 records. -/
theorem c9_demo_data_length_min_limit_five (query location site : String)
    (limit rlimit : Nat) (soft : Bool) :
    (MultiSiteJobScraper.demoCatalog query).length = 5 ∧
    (MultiSiteJobScraper._blocked_response query location limit site soft).demo_data =
      some (MultiSiteJobScraper._get_demo_jobs query limit) ∧
    (MultiSiteJobScraper._get_demo_jobs query limit).length = min limit 5 ∧
    (5 < rlimit →
      (MultiSiteJobScraper._get_demo_jobs query (min (max rlimit 1) 20)).length = 5) := by
  have h5 : (MultiSiteJobScraper.demoCatalog query).length = 5 := rfl
  refine ⟨h5, rfl, ?_, ?_⟩
  · show ((MultiSiteJobScraper.demoCatalog query).take limit).length = min limit 5
    rw [List.length_take, h5]
  · intro hr
    show ((MultiSiteJobScraper.demoCatalog query).take (min (max rlimit 1) 20)).length = 5
    rw [List.length_take, h5]
    omega

/-- C9 witness: at requested limit 7 the failure envelope carries exactly 5
demo records. -/
theorem c9_witness :
    (MultiSiteJobScraper.demoCatalog "engineer").length = 5 ∧
    (MultiSiteJobScraper._blocked_response "engineer" "" 7 "reed" false).demo_data =
      some (MultiSiteJobScraper._get_demo_jobs "engineer" 7) ∧
    (MultiSiteJobScraper._get_demo_jobs "engineer" 7).length = min 7 5 ∧
    (MultiSiteJobScraper._get_demo_jobs "engineer" (min (max 7 1) 20)).length = 5 :=
  ⟨(c9_demo_data_length_min_limit_five "engineer" "" "reed" 7 7 false).1,
   (c9_demo_data_length_min_limit_five "engineer" "" "reed" 7 7 false).2.1,
   (c9_demo_data_length_min_limit_five "engineer" "" "reed" 7 7 false).2.2.1,
   (c9_demo_data_length_min_limit_five "engineer" "" "reed" 7 7 false).2.2.2 (by decide)⟩

theorem dataAppend (s t : String) : (s ++ t).data = s.data ++ t.data := by
  cases s; cases t; rfl

theorem searchJobs_jobs_le (query location site : String) (lim : Nat) (oracle : FetchOracle)
    (js : List Job)
    (hj : (MultiSiteJobScraper.search_jobs query location lim site oracle).jobs = some js) :
    js.length ≤ lim := by
  by_cases hd : site = "httpbin-demo"
  · exfalso
    unfold MultiSiteJobScraper.search_jobs at hj
    rw [if_pos hd] at hj
    simp [MultiSiteJobScraper._demo_proxy_rotation] at hj
  · unfold MultiSiteJobScraper.search_jobs at hj
    rw [if_neg hd] at hj
    cases hcfg : MultiSiteJobScraper.SITE_CONFIGS.lookup site with
    | none =>
      simp only [hcfg] at hj
      simp [MultiSiteJobScraper.unknownSiteResult] at hj
    | some cfg =>
      simp only [hcfg] at hj
      cases hreq : MultiSiteJobScraper._make_request
          (oracle (MultiSiteJobScraper._build_search_url cfg query location) 0) 2 with
      | error e =>
        simp only [hreq] at hj
        simp [MultiSiteJobScraper.errorResult] at hj
      | ok resp =>
        simp only [hreq] at hj
        by_cases h403 : resp.status = 403
        · rw [if_pos h403] at hj
          simp [MultiSiteJobScraper._blocked_response] at hj
        · rw [if_neg h403] at hj
          by_cases h200 : resp.status ≠ 200
          · rw [if_pos h200] at hj
            simp [MultiSiteJobScraper._blocked_response] at hj
          · rw [if_neg h200] at hj
            by_cases hemp : (MultiSiteJobScraper._parse_jobs resp.soup site lim).isEmpty
            · rw [if_pos hemp] at hj
              simp [MultiSiteJobScraper._blocked_response] at hj
            · rw [if_neg hemp] at hj
              simp only [MultiSiteJobScraper.successResult, Option.some.injEq] at hj
              subst hj
              exact MultiSiteJobScraper.parse_jobs_length_le resp.soup site lim

/-- C1: for every query, location, site and requested limit in [1, 50], a
result of the tool-level `search_jobs` carrying a jobs list (as every
`success=true` result of the scraping pipeline does) has at most `limit`
jobs in it. -/
theorem c1_success_jobs_within_requested_limit (query location site : String) (limit : Nat)
    (oracle : FetchOracle) (js : List Job) (h1 : 1 ≤ limit) (h2 : limit ≤ 50)
    (_hs : (search_jobs query location limit site oracle).success = true)
    (hj : (search_jobs query location limit site oracle).jobs = some js) :
    js.length ≤ limit := by
  have hb := searchJobs_jobs_le query location site (min (max limit 1) 20) oracle js hj
  omega

/-- C1 witness: a successful Reed search at requested limit 10 returns one
job, within the limit. -/
theorem c1_witness :
    (1 : Nat) ≤ 10 ∧ (10 : Nat) ≤ 50 ∧
    (search_jobs "python" "" 10 "reed" oracle200).success = true ∧
    ([⟨"Python Developer", "N/A", "N/A", some "Not specified"⟩] : List Job).length ≤ 10 :=
  ⟨by decide, by decide, by decide,
   c1_success_jobs_within_requested_limit "python" "" "reed" 10 oracle200
     [⟨"Python Developer", "N/A", "N/A", some "Not specified"⟩]
     (by decide) (by decide) (by decide) (by decide)⟩

/-- C3: the claim fails on the code: the `available_sites` field of the
unknown-site failure omits the registered identifier `httpbin-demo`
(the join skips it), so it does not list ALL registered identifiers. -/
theorem c3_counterexample_available_sites_omits_demo :
    (MultiSiteJobScraper.search_jobs "rust" "" 10 "garbage" oracleNone).success = false ∧
    (MultiSiteJobScraper.search_jobs "rust" "" 10 "garbage" oracleNone).available_sites =
      some MultiSiteJobScraper.availableSites ∧
    "httpbin-demo" ∈ MultiSiteJobScraper.SITE_KEYS ∧
    ¬ ("httpbin-demo".data <:+: MultiSiteJobScraper.availableSites.data) :=
  ⟨rfl, rfl, by decide, by decide⟩

/-- C3 (amended): for every input string that is not a registered source
identifier, `search_jobs` returns `success=false` with an `available_sites`
field that lists all registered identifiers except the synthetic demo
source `httpbin-demo`. -/
theorem c3_unknown_site_failure_lists_non_demo_sites (query location site : String)
    (limit : Nat) (oracle : FetchOracle)
    (h : MultiSiteJobScraper.SITE_CONFIGS.lookup site = none) :
    (MultiSiteJobScraper.search_jobs query location limit site oracle).success = false ∧
    (MultiSiteJobScraper.search_jobs query location limit site oracle).error =
      some ("Unknown site: " ++ site) ∧
    (MultiSiteJobScraper.search_jobs query location limit site oracle).available_sites =
      some MultiSiteJobScraper.availableSites ∧
    ∀ k ∈ MultiSiteJobScraper.SITE_KEYS, k ≠ "httpbin-demo" →
      k.data <:+: MultiSiteJobScraper.availableSites.data := by
  have hd : site ≠ "httpbin-demo" := by
    intro he
    subst he
    exact absurd h (by decide)
  unfold MultiSiteJobScraper.search_jobs
  rw [if_neg hd]
  simp only [h]
  refine ⟨rfl, rfl, rfl, ?_⟩
  intro k hk hkd
  have hk' : k = "reed" ∨ k = "cwjobs" ∨ k = "totaljobs" ∨ k = "httpbin-demo" := by
    simpa [MultiSiteJobScraper.SITE_KEYS, MultiSiteJobScraper.SITE_CONFIGS] using hk
  rcases hk' with rfl | rfl | rfl | rfl
  · decide
  · decide
  · decide
  · exact absurd rfl hkd

/-- C3 witness: the garbage identifier yields the failure envelope listing
the three non-demo sites. -/
theorem c3_witness :
    (MultiSiteJobScraper.search_jobs "python" "london" 10 "monster" oracleNone).success = false ∧
    (MultiSiteJobScraper.search_jobs "python" "london" 10 "monster" oracleNone).error =
      some ("Unknown site: " ++ "monster") ∧
    (MultiSiteJobScraper.search_jobs "python" "london" 10 "monster" oracleNone).available_sites =
      some MultiSiteJobScraper.availableSites ∧
    ∀ k ∈ MultiSiteJobScraper.SITE_KEYS, k ≠ "httpbin-demo" →
      k.data <:+: MultiSiteJobScraper.availableSites.data :=
  c3_unknown_site_failure_lists_non_demo_sites "python" "london" "monster" 10 oracleNone
    (by decide)

/-- C5: the claim fails on the code: the synthetic titles are templated from
the TITLE-CASED query, so for the lower-case query "python" the title
"Senior Python" does not contain the queried term "python" as a substring. -/
theorem c5_counterexample_title_case :
    (search_jobs "python" "" 5 "reed" oracle403).success = false ∧
    ((search_jobs "python" "" 5 "reed" oracle403).demo_data.getD []).map (fun j => j.title) =
      ["Senior Python", "Python Developer", "Lead Python", "Junior Python",
       "Principal Python"] ∧
    ¬ ("python".data <:+: "Senior Python".data) :=
  ⟨rfl, rfl, by decide⟩

/-- C5 (amended): for every query, location and registered non-demo site,
when the fetch returns a 403 response and the requested limit is 5,
`search_jobs` returns a failure envelope with exactly 5 synthetic records,
each of whose titles contains the TITLE-CASED queried term. -/
theorem c5_blocked_returns_five_titlecased_demo_records (query location site : String)
    (oracle : FetchOracle) (cfg : SiteConfig) (resp : Response)
    (hd : site ≠ "httpbin-demo")
    (hcfg : MultiSiteJobScraper.SITE_CONFIGS.lookup site = some cfg)
    (hreq : MultiSiteJobScraper._make_request
      (oracle (MultiSiteJobScraper._build_search_url cfg query location) 0) 2 = .ok resp)
    (h403 : resp.status = 403) :
    (MultiSiteJobScraper.search_jobs query location 5 site oracle).success = false ∧
    ∃ ds, (MultiSiteJobScraper.search_jobs query location 5 site oracle).demo_data = some ds ∧
      ds.length = 5 ∧
      ∀ j ∈ ds, (MultiSiteJobScraper.pyTitle query).data <:+: j.title.data := by
  have hres : MultiSiteJobScraper.search_jobs query location 5 site oracle =
      MultiSiteJobScraper._blocked_response query location 5 site false := by
    unfold MultiSiteJobScraper.search_jobs
    rw [if_neg hd]
    simp only [hcfg]
    simp only [hreq]
    rw [if_pos h403]
  rw [hres]
  refine ⟨rfl, MultiSiteJobScraper._get_demo_jobs query 5, rfl, rfl, ?_⟩
  intro j hj
  have hj' : j.title = "Senior " ++ MultiSiteJobScraper.pyTitle query ∨
      j.title = MultiSiteJobScraper.pyTitle query ++ " Developer" ∨
      j.title = "Lead " ++ MultiSiteJobScraper.pyTitle query ∨
      j.title = "Junior " ++ MultiSiteJobScraper.pyTitle query ∨
      j.title = "Principal " ++ MultiSiteJobScraper.pyTitle query := by
    simp only [MultiSiteJobScraper._get_demo_jobs, MultiSiteJobScraper.demoCatalog,
      List.take, List.mem_cons, List.not_mem_nil, or_false] at hj
    rcases hj with rfl | rfl | rfl | rfl | rfl <;> simp
  rcases hj' with h | h | h | h | h <;> rw [h, dataAppend]
  · exact (List.suffix_append _ _).isInfix
  · exact (List.prefix_append _ _).isInfix
  · exact (List.suffix_append _ _).isInfix
  · exact (List.suffix_append _ _).isInfix
  · exact (List.suffix_append _ _).isInfix

/-- C5 witness: a blocked Reed search for "data engineer" at limit 5 yields
5 demo records whose titles contain "Data Engineer". -/
theorem c5_witness :
    (MultiSiteJobScraper.search_jobs "data engineer" "" 5 "reed" oracle403).success = false ∧
    ∃ ds, (MultiSiteJobScraper.search_jobs "data engineer" "" 5 "reed" oracle403).demo_data =
        some ds ∧
      ds.length = 5 ∧
      ∀ j ∈ ds, (MultiSiteJobScraper.pyTitle "data engineer").data <:+: j.title.data :=
  c5_blocked_returns_five_titlecased_demo_records "data engineer" "" "reed" oracle403
    MultiSiteJobScraper.reedConfig fetch403 (by decide) (by decide) rfl rfl

/-- C10: the claim fails on the code: with the registered demo source
`httpbin-demo`, `search_jobs` returns `success=true` even though the fetched
response has status 500, so `success=true` is not only produced from
status-200 responses. -/
theorem c10_counterexample_demo_mode_success_without_200 :
    (MultiSiteJobScraper.search_jobs "python" "" 3 "httpbin-demo" oracle500).success = true ∧
    MultiSiteJobScraper._make_request (oracle500 "http://httpbin.org/ip" 0) 2 = .ok fetch500 ∧
    fetch500.status ≠ 200 :=
  ⟨rfl, rfl, by decide⟩

/-- C10 (amended): for every registered non-demo site, a fetched response
with status other than 200 (204, 301, 403, ...) makes `search_jobs` return a
failure envelope with demo data attached, and `success=true` is only ever
produced from a status-200 response. -/
theorem c10_non_200_failure_with_demo_data (query location site : String) (limit : Nat)
    (oracle : FetchOracle) (cfg : SiteConfig)
    (hd : site ≠ "httpbin-demo")
    (hcfg : MultiSiteJobScraper.SITE_CONFIGS.lookup site = some cfg) :
    (∀ resp, MultiSiteJobScraper._make_request
        (oracle (MultiSiteJobScraper._build_search_url cfg query location) 0) 2 = .ok resp →
      resp.status ≠ 200 →
      (MultiSiteJobScraper.search_jobs query location limit site oracle).success = false ∧
      (MultiSiteJobScraper.search_jobs query location limit site oracle).demo_data =
        some (MultiSiteJobScraper._get_demo_jobs query limit)) ∧
    ((MultiSiteJobScraper.search_jobs query location limit site oracle).success = true →
      ∃ resp, MultiSiteJobScraper._make_request
          (oracle (MultiSiteJobScraper._build_search_url cfg query location) 0) 2 = .ok resp ∧
        resp.status = 200) := by
  constructor
  · intro resp hreq h200
    have hres : MultiSiteJobScraper.search_jobs query location limit site oracle =
        MultiSiteJobScraper._blocked_response query location limit site false := by
      unfold MultiSiteJobScraper.search_jobs
      rw [if_neg hd]
      simp only [hcfg]
      simp only [hreq]
      by_cases h403 : resp.status = 403
      · rw [if_pos h403]
      · rw [if_neg h403, if_pos h200]
    rw [hres]
    exact ⟨rfl, rfl⟩
  · intro hs
    cases hreq : MultiSiteJobScraper._make_request
        (oracle (MultiSiteJobScraper._build_search_url cfg query location) 0) 2 with
    | error e =>
      exfalso
      unfold MultiSiteJobScraper.search_jobs at hs
      rw [if_neg hd] at hs
      simp only [hcfg] at hs
      simp only [hreq] at hs
      simp [MultiSiteJobScraper.errorResult] at hs
    | ok resp =>
      refine ⟨resp, rfl, ?_⟩
      by_contra hne
      unfold MultiSiteJobScraper.search_jobs at hs
      rw [if_neg hd] at hs
      simp only [hcfg] at hs
      simp only [hreq] at hs
      by_cases h403 : resp.status = 403
      · rw [if_pos h403] at hs
        simp [MultiSiteJobScraper._blocked_response] at hs
      · rw [if_neg h403, if_pos hne] at hs
        simp [MultiSiteJobScraper._blocked_response] at hs

/-- C10 witness: a 204 response on a Reed search yields a failure envelope
with demo data. -/
theorem c10_witness :
    (MultiSiteJobScraper.search_jobs "python" "" 10 "reed" oracle204).success = false ∧
    (MultiSiteJobScraper.search_jobs "python" "" 10 "reed" oracle204).demo_data =
      some (MultiSiteJobScraper._get_demo_jobs "python" 10) :=
  (c10_non_200_failure_with_demo_data "python" "" "reed" 10 oracle204
      MultiSiteJobScraper.reedConfig (by decide) (by decide)).1
    fetch204 rfl (by decide)
